import Mathlib

/-
  Verification development for the FramelessWidgetsHelper subsystem
  (src/src/widgets/framelesswidgetshelper.cpp).

  The data model and the operations are shallowly embedded from the C++
  source: Qt geometry types become integer structures, widget pointers
  become explicit `Widget` values (a `QPointer` slot is an `Option Widget`,
  `none` standing both for an unset slot and a destroyed weak reference),
  and the per-window mutable state becomes explicit state passing over a
  `LifecycleState` record.  Definitions named `spec...` instead follow the
  wording of the natural-language specification and are compared with the
  source-derived ones by theorems.
-/

set_option maxHeartbeats 1000000

namespace FramelessHelper

/-- Integer point, embedding Qt's `QPoint`. -/
structure QPoint where
  x : Int
  y : Int
  deriving DecidableEq, Repr

/-- Integer size, embedding Qt's `QSize`. -/
structure QSize where
  w : Int
  h : Int
  deriving DecidableEq, Repr

/-- Margins, embedding Qt's `QMargins`. -/
structure QMargins where
  left : Int
  top : Int
  right : Int
  bottom : Int
  deriving DecidableEq, Repr

/-- Rectangle, embedding Qt's `QRect`: origin plus width/height.
Qt stores `x2 = x + w - 1` and `y2 = y + h - 1` internally. -/
structure QRect where
  x : Int
  y : Int
  w : Int
  h : Int
  deriving DecidableEq, Repr

/-- Qt `QSize::isEmpty`: true when either component is less than 1. -/
def QSize.isEmpty (s : QSize) : Bool :=
  s.w < 1 || s.h < 1

/-- Qt `QSize::shrunkBy(margins)`. -/
def QSize.shrunkBy (s : QSize) (m : QMargins) : QSize :=
  ⟨s.w - m.left - m.right, s.h - m.top - m.bottom⟩

/-- Qt `QSize::grownBy(margins)`. -/
def QSize.grownBy (s : QSize) (m : QMargins) : QSize :=
  ⟨s.w + m.left + m.right, s.h + m.top + m.bottom⟩

/-- Componentwise point subtraction, Qt `QPoint::operator-`. -/
def QPoint.sub (a b : QPoint) : QPoint :=
  ⟨a.x - b.x, a.y - b.y⟩

/-- Componentwise point addition, Qt `QPoint::operator+`. -/
def QPoint.add (a b : QPoint) : QPoint :=
  ⟨a.x + b.x, a.y + b.y⟩

/-- Qt `QRect::isValid`: width and height both positive. -/
def QRect.isValid (r : QRect) : Bool :=
  0 < r.w && 0 < r.h

/-- Qt `QRect::isNull`: width and height both zero. -/
def QRect.isNull (r : QRect) : Bool :=
  r.w == 0 && r.h == 0

/-- Qt `QRect::contains(point)` (non-proper variant), embedded from the Qt
implementation: the stored corners are normalised on the fly when the
rectangle is stored "inverted" by more than one pixel. -/
def QRect.containsPoint (r : QRect) (p : QPoint) : Bool :=
  let x1 := r.x
  let x2 := r.x + r.w - 1
  let y1 := r.y
  let y2 := r.y + r.h - 1
  let lo := if x2 < x1 - 1 then x2 else x1
  let hi := if x2 < x1 - 1 then x1 else x2
  let top := if y2 < y1 - 1 then y2 else y1
  let bot := if y2 < y1 - 1 then y1 else y2
  (lo ≤ p.x && p.x ≤ hi) && (top ≤ p.y && p.y ≤ bot)

/-- Qt `QRect::intersects`, embedded from the Qt implementation: null
rectangles never intersect anything; for each axis the stored corners are
normalised (the branch condition `x2 - x1 + 1 < 0` is `w < 0`). -/
def QRect.intersects (a b : QRect) : Bool :=
  if a.isNull || b.isNull then false
  else
    let l1 := if a.w < 0 then a.x + a.w - 1 else a.x
    let r1 := if a.w < 0 then a.x else a.x + a.w - 1
    let l2 := if b.w < 0 then b.x + b.w - 1 else b.x
    let r2 := if b.w < 0 then b.x else b.x + b.w - 1
    if l1 > r2 || l2 > r1 then false
    else
      let t1 := if a.h < 0 then a.y + a.h - 1 else a.y
      let b1 := if a.h < 0 then a.y else a.y + a.h - 1
      let t2 := if b.h < 0 then b.y + b.h - 1 else b.y
      let b2 := if b.h < 0 then b.y else b.y + b.h - 1
      if t1 > b2 || t2 > b1 then false
      else true

/-- Membership of a point in the pixel set of a rectangle, which is the
semantics of converting a `QRect` to a `QRegion`: the pixel set is
`[x, x+w) × [y, y+h)`, empty whenever the rectangle is empty or invalid. -/
def rectPixelContains (r : QRect) (p : QPoint) : Bool :=
  (r.x ≤ p.x && p.x < r.x + r.w) && (r.y ≤ p.y && p.y < r.y + r.h)

/-- A `QRegion` is modelled extensionally as its characteristic function on
integer points. -/
abbrev QRegion := QPoint → Bool

/-- Conversion `QRegion(QRect)`: the rectangle's pixel set. -/
def QRegion.ofRect (r : QRect) : QRegion :=
  fun p => rectPixelContains r p

/-- `QRegion::operator-=(QRect)`: remove the rectangle's pixel set. -/
def QRegion.subtractRect (reg : QRegion) (r : QRect) : QRegion :=
  fun p => reg p && !rectPixelContains r p

/-- `QRegion::contains(QPoint)`. -/
def QRegion.containsPoint (reg : QRegion) (p : QPoint) : Bool :=
  reg p

/-- The system-button roles, from the `SystemButtonType` enum used by the
source (declared in the core global header). -/
inductive SystemButtonType where
  | Unknown
  | WindowIcon
  | Help
  | Minimize
  | Maximize
  | Restore
  | Close
  deriving DecidableEq, Repr

/-- Button visual feedback state passed through `setSystemButtonState`.
The source treats the value opaquely (it is forwarded to
`Utils::emulateQtMouseEvent`), so the constructors are opaque here too. -/
inductive ButtonState where
  | Normal
  | Hovered
  | Pressed
  | Released
  deriving DecidableEq, Repr

/-- The single window state produced by `Utils::windowStatesToWindowState`. -/
inductive WindowState where
  | NoState
  | Minimized
  | Maximized
  | FullScreen
  deriving DecidableEq, Repr

/-- A widget as observed by the hit-test engine: identity (standing for the
pointer), visibility, enabled state, the origin of its `geometry()` in
parent coordinates, the origin of `mapTo(window, (0,0))`, and its size. -/
structure Widget where
  id : Nat
  visible : Bool
  enabled : Bool
  pos : QPoint
  sceneOrigin : QPoint
  size : QSize
  deriving DecidableEq, Repr

/-- `QWidget::geometry()`: position in parent coordinates plus size. -/
def Widget.geometry (w : Widget) : QRect :=
  ⟨w.pos.x, w.pos.y, w.size.w, w.size.h⟩

/-- `FramelessWidgetsHelperPrivate::mapWidgetGeometryToScene`: the rectangle
`QRect(widget->mapTo(m_window, QPoint(0, 0)), widget->size())`. -/
def mapWidgetGeometryToScene (w : Widget) : QRect :=
  ⟨w.sceneOrigin.x, w.sceneOrigin.y, w.size.w, w.size.h⟩

/-- The attached top-level window as observed by the hit-test engine:
identity, client size and current window state. -/
structure Window where
  winId : Nat
  width : Int
  height : Int
  state : WindowState
  deriving DecidableEq, Repr

/-- The per-window record `FramelessWidgetsHelperData`.  `params` abstracts
the `SystemParameters` callback table by the identity of the window whose
callbacks populate it (`none` when the table is still default-initialised);
each `QPointer` slot is an `Option Widget`. -/
structure FramelessWidgetsHelperData where
  ready : Bool := false
  params : Option Nat := none
  titleBarWidget : Option Widget := none
  hitTestVisibleWidgets : List (Option Widget) := []
  windowIconButton : Option Widget := none
  contextHelpButton : Option Widget := none
  minimizeButton : Option Widget := none
  maximizeButton : Option Widget := none
  closeButton : Option Widget := none
  hitTestVisibleRects : List QRect := []
  deriving DecidableEq, Repr

/-- The default-initialised per-window record. -/
def defaultHelperData : FramelessWidgetsHelperData := {}

/-- Test used for each system button in `isInSystemButtons`: the slot is
assigned, the widget is visible and enabled, and its `geometry()` contains
the point. -/
def widgetHit (ow : Option Widget) (pos : QPoint) : Bool :=
  match ow with
  | some b => b.visible && b.enabled && (Widget.geometry b).containsPoint pos
  | none => false

/-- `FramelessWidgetsHelperPrivate::isInSystemButtons`, embedded from the
source: with no per-window record the function returns false and leaves the
out-parameter untouched (modelled by returning `buttonIn`); otherwise the
five slots are tested in source order and the first hit wins, with
`(false, Unknown)` when none hits. -/
def isInSystemButtons (odata : Option FramelessWidgetsHelperData) (pos : QPoint)
    (buttonIn : SystemButtonType) : Bool × SystemButtonType :=
  match odata with
  | none => (false, buttonIn)
  | some data =>
    if widgetHit data.windowIconButton pos then (true, SystemButtonType.WindowIcon)
    else if widgetHit data.contextHelpButton pos then (true, SystemButtonType.Help)
    else if widgetHit data.minimizeButton pos then (true, SystemButtonType.Minimize)
    else if widgetHit data.maximizeButton pos then (true, SystemButtonType.Maximize)
    else if widgetHit data.closeButton pos then (true, SystemButtonType.Close)
    else (false, SystemButtonType.Unknown)

/-- One step of the region subtraction loop over system buttons and
hit-test-excluded widgets in `isInTitleBarDraggableArea`: subtract the
widget's mapped rectangle when the slot is live, visible and enabled. -/
def subtractWidgetRect (reg : QRegion) (ow : Option Widget) : QRegion :=
  match ow with
  | some b =>
    if b.visible && b.enabled then QRegion.subtractRect reg (mapWidgetGeometryToScene b)
    else reg
  | none => reg

/-- One step of the region subtraction loop over literal excluded
rectangles: subtract the rectangle when it is valid. -/
def subtractValidRect (reg : QRegion) (r : QRect) : QRegion :=
  if r.isValid then QRegion.subtractRect reg r else reg

/-- `FramelessWidgetsHelperPrivate::isInTitleBarDraggableArea`, embedded
from the source.  `mw` is `m_window` (the attached window) and `odata` the
result of `getWindowData()` (which is null exactly when unattached). -/
def isInTitleBarDraggableArea (mw : Option Window)
    (odata : Option FramelessWidgetsHelperData) (pos : QPoint) : Bool :=
  match odata with
  | none => false
  | some data =>
    match data.titleBarWidget with
    | none => false
    | some tb =>
      if !tb.visible || !tb.enabled then false
      else
        match mw with
        | none => false
        | some w =>
          let windowRect : QRect := ⟨0, 0, w.width, w.height⟩
          let titleBarRect : QRect := mapWidgetGeometryToScene tb
          if !(QRect.intersects titleBarRect windowRect) then false
          else
            let region0 := QRegion.ofRect titleBarRect
            let region1 :=
              [data.windowIconButton, data.contextHelpButton, data.minimizeButton,
               data.maximizeButton, data.closeButton].foldl subtractWidgetRect region0
            let region2 := data.hitTestVisibleWidgets.foldl subtractWidgetRect region1
            let region3 := data.hitTestVisibleRects.foldl subtractValidRect region2
            QRegion.containsPoint region3 pos

/-- Resize-border thickness used by `shouldIgnoreMouseEvents`.
Modelled from the spec: the constant `kDefaultResizeBorderThickness` is
declared in the core global header, which is not under src/; the spec's
examples fix its value at 8. -/
def kDefaultResizeBorderThickness : Int := 8

/-- `FramelessWidgetsHelperPrivate::shouldIgnoreMouseEvents`, embedded from
the source.  `frameBorderVisible` abstracts the platform condition: on
Windows it is `Utils::isWindowFrameBorderVisible()`, and on the other
platforms the corresponding `#ifdef` block is absent, which is the
`frameBorderVisible = false` case. -/
def shouldIgnoreMouseEvents (mw : Option Window) (frameBorderVisible : Bool)
    (pos : QPoint) : Bool :=
  match mw with
  | none => false
  | some w =>
    let withinFrameBorder : Bool :=
      if pos.y < kDefaultResizeBorderThickness then true
      else if frameBorderVisible then false
      else decide (pos.x < kDefaultResizeBorderThickness)
           || decide (pos.x ≥ w.width - kDefaultResizeBorderThickness)
    decide (w.state = WindowState.NoState) && withinFrameBorder

/-- Exclusion test used by the specification's wording for the draggable
area: a live, visible and enabled widget whose mapped rectangle contains
the point. -/
def sceneRectExcludesWidget (ow : Option Widget) (pos : QPoint) : Bool :=
  match ow with
  | some b => b.visible && b.enabled && rectPixelContains (mapWidgetGeometryToScene b) pos
  | none => false

/-- The draggable-area predicate as worded by the spec: false when no
title-bar widget, hidden/disabled, unattached, or no intersection with the
client rectangle; otherwise membership in the title-bar rectangle minus
every visible+enabled system button, minus every visible+enabled excluded
widget, minus every valid literal excluded rectangle. -/
def specIsInsideDraggableArea (mw : Option Window)
    (odata : Option FramelessWidgetsHelperData) (pos : QPoint) : Bool :=
  match mw, odata with
  | some w, some data =>
    match data.titleBarWidget with
    | some tb =>
      if tb.visible && tb.enabled
          && QRect.intersects (mapWidgetGeometryToScene tb) ⟨0, 0, w.width, w.height⟩ then
        rectPixelContains (mapWidgetGeometryToScene tb) pos
          && ([data.windowIconButton, data.contextHelpButton, data.minimizeButton,
              data.maximizeButton, data.closeButton].all
                (fun ob => !sceneRectExcludesWidget ob pos))
          && (data.hitTestVisibleWidgets.all (fun ow => !sceneRectExcludesWidget ow pos))
          && (data.hitTestVisibleRects.all (fun r => !(r.isValid && rectPixelContains r pos)))
      else false
    | none => false
  | _, _ => false

/-- The system-button slots in the spec's fixed priority order. -/
def specButtonPriority (data : FramelessWidgetsHelperData) :
    List (SystemButtonType × Option Widget) :=
  [(SystemButtonType.WindowIcon, data.windowIconButton),
   (SystemButtonType.Help, data.contextHelpButton),
   (SystemButtonType.Minimize, data.minimizeButton),
   (SystemButtonType.Maximize, data.maximizeButton),
   (SystemButtonType.Close, data.closeButton)]

/-- The system-button predicate as worded by the spec: the first slot in
priority order whose assigned, visible and enabled widget's rectangle
contains the point, `none` when no slot matches. -/
def specIsInsideSystemButton (data : FramelessWidgetsHelperData) (pos : QPoint) :
    Option SystemButtonType :=
  (specButtonPriority data).findSome?
    (fun rp => if widgetHit rp.2 pos then some rp.1 else none)

/-- The mouse-ignore predicate as worded by the spec: normal window state
and the point inside the top resize band, or, on platforms with no native
frame border indicator, inside the left or right band. -/
def specShouldIgnoreMouseEvents (mw : Option Window) (frameBorderVisible : Bool)
    (pos : QPoint) : Bool :=
  match mw with
  | none => false
  | some w =>
    decide (w.state = WindowState.NoState)
      && (decide (pos.y < kDefaultResizeBorderThickness)
          || (!frameBorderVisible
              && (decide (pos.x < kDefaultResizeBorderThickness)
                  || decide (pos.x ≥ w.width - kDefaultResizeBorderThickness))))

/-- Helper to build a visible, enabled widget whose parent-coordinate and
window-coordinate rectangles coincide with `r`. -/
def mkButton (i : Nat) (r : QRect) : Widget :=
  { id := i, visible := true, enabled := true,
    pos := ⟨r.x, r.y⟩, sceneOrigin := ⟨r.x, r.y⟩, size := ⟨r.w, r.h⟩ }

/-- Title bar widget of the spec's worked hit-test example: (0,0,400,30). -/
def exampleTitleBar : Widget := mkButton 10 ⟨0, 0, 400, 30⟩

/-- Close button of the spec's worked hit-test example: (370,0,30,30). -/
def exampleCloseButton : Widget := mkButton 11 ⟨370, 0, 30, 30⟩

/-- Per-window record of the spec's worked hit-test example. -/
def exampleHitTestData : FramelessWidgetsHelperData :=
  { ready := true, titleBarWidget := some exampleTitleBar,
    closeButton := some exampleCloseButton }

/-- Window of the spec's worked examples: 400x300, normal state. -/
def exampleWindow : Window :=
  { winId := 1, width := 400, height := 300, state := WindowState.NoState }

/-- Per-window record with overlapping window-icon and help buttons, for the
spec's priority example. -/
def exampleOverlapData : FramelessWidgetsHelperData :=
  { windowIconButton := some (mkButton 1 ⟨0, 0, 20, 20⟩),
    contextHelpButton := some (mkButton 2 ⟨10, 0, 20, 20⟩) }

/-- A point inside both overlapping button rectangles. -/
def exampleOverlapPoint : QPoint := ⟨15, 10⟩

/-- A widget as observed by the repaint forcer `forceWidgetRepaint` and by
`isWidgetFixedSize`: whether it is a top-level window, its window-state
flags, the fixed-size dialog hint, minimum/maximum sizes, whether each size
policy direction is `QSizePolicy::Fixed`, and its current geometry. -/
structure RepaintWidget where
  isWindow : Bool
  minimized : Bool
  maximized : Bool
  fullScreen : Bool
  fixedSizeHint : Bool
  minSize : QSize
  maxSize : QSize
  horizontalPolicyFixed : Bool
  verticalPolicyFixed : Bool
  size : QSize
  pos : QPoint
  deriving DecidableEq, Repr

/-- Geometry operations performed on a widget by the repaint forcer, in
order: `update()`, `resize(s)` and `move(p)`. -/
inductive GeomEvent where
  | update
  | resize (s : QSize)
  | move (p : QPoint)
  deriving DecidableEq, Repr

/-- Whether a geometry event is a `move`. -/
def GeomEvent.isMove : GeomEvent → Bool
  | GeomEvent.move _ => true
  | _ => false

/-- Whether a geometry event is a `resize`. -/
def GeomEvent.isResize : GeomEvent → Bool
  | GeomEvent.resize _ => true
  | _ => false

/-- The `move` events of a trace. -/
def movesOf (l : List GeomEvent) : List GeomEvent :=
  l.filter GeomEvent.isMove

/-- The `resize` events of a trace. -/
def resizesOf (l : List GeomEvent) : List GeomEvent :=
  l.filter GeomEvent.isResize

/-- The static `isWidgetFixedSize` helper, embedded from the source: the
fixed-size dialog hint, equal non-empty minimum and maximum sizes, or a
fixed size policy in both directions. -/
def isWidgetFixedSize (w : RepaintWidget) : Bool :=
  if w.fixedSizeHint then true
  else if !(QSize.isEmpty w.minSize) && !(QSize.isEmpty w.maxSize)
          && w.minSize == w.maxSize then true
  else if w.horizontalPolicyFixed && w.verticalPolicyFixed then true
  else false

/-- The margins constant of `forceWidgetRepaint`. -/
def repaintMargins : QMargins := ⟨10, 10, 10, 10⟩

/-- The offset constant of `forceWidgetRepaint`. -/
def repaintOffset : QPoint := ⟨10, 10⟩

/-- The static `forceWidgetRepaint` helper, embedded from the source.  The
result is the widget's final state together with the trace of geometry
operations issued on it, in order.  The Windows-only
`updateInternalWindowFrameMargins` call is an external platform call with
no effect on the widget's geometry and is not part of the trace. -/
def forceWidgetRepaint (w : RepaintWidget) : RepaintWidget × List GeomEvent :=
  let ev0 : List GeomEvent := [GeomEvent.update]
  let stepped :=
    if !w.isWindow || !(w.minimized || w.maximized || w.fullScreen) then
      let sized :=
        if !(isWidgetFixedSize w) then
          let originalSize := w.size
          let s1 := QSize.shrunkBy originalSize repaintMargins
          let s2 := QSize.grownBy originalSize repaintMargins
          let wa := { w with size := s1 }
          let wb := { wa with size := s2 }
          let wc := { wb with size := originalSize }
          (wc, [GeomEvent.resize s1, GeomEvent.resize s2, GeomEvent.resize originalSize])
        else (w, ([] : List GeomEvent))
      let w1 := sized.1
      let originalPosition := w1.pos
      let p1 := QPoint.sub originalPosition repaintOffset
      let p2 := QPoint.add originalPosition repaintOffset
      let wd := { w1 with pos := p1 }
      let we := { wd with pos := p2 }
      let wf := { we with pos := originalPosition }
      (wf, sized.2 ++ [GeomEvent.move p1, GeomEvent.move p2, GeomEvent.move originalPosition])
    else (w, ([] : List GeomEvent))
  (stepped.1, ev0 ++ stepped.2 ++ [GeomEvent.update])

/-- `FramelessWidgetsHelperPrivate::setSystemButtonState`, embedded from the
source.  The synthesized feedback (`Utils::emulateQtMouseEvent`) is an
external effect; the model returns the widget the event is emulated on and
the requested state, or `none` when the call is a no-op (unknown role, no
per-window record, or empty slot). -/
def setSystemButtonState (odata : Option FramelessWidgetsHelperData)
    (button : SystemButtonType) (state : ButtonState) : Option (Widget × ButtonState) :=
  if button = SystemButtonType.Unknown then none
  else
    match odata with
    | none => none
    | some data =>
      let widgetButton : Option Widget :=
        match button with
        | SystemButtonType.WindowIcon => data.windowIconButton
        | SystemButtonType.Help => data.contextHelpButton
        | SystemButtonType.Minimize => data.minimizeButton
        | SystemButtonType.Maximize => data.maximizeButton
        | SystemButtonType.Restore => data.maximizeButton
        | SystemButtonType.Close => data.closeButton
        | SystemButtonType.Unknown => none
      match widgetButton with
      | none => none
      | some wb => some (wb, state)

/-- A `QVariant` restricted to the observations the claims need: either the
invalid (default-constructed) variant or a valid payload. -/
inductive QVariant where
  | invalid
  | value (n : Int)
  deriving DecidableEq, Repr

/-- `QVariant::isValid`. -/
def QVariant.isValid : QVariant → Bool
  | QVariant.invalid => false
  | QVariant.value _ => true

/-- A window as observed by the property accessors: its dynamic property
table. -/
structure PropWindow where
  props : List (String × QVariant)
  deriving DecidableEq, Repr

/-- `QObject::property(name)`: the stored variant, or the invalid variant
when the property is unset. -/
def PropWindow.property (w : PropWindow) (name : String) : QVariant :=
  (w.props.lookup name).getD QVariant.invalid

/-- `FramelessWidgetsHelperPrivate::getProperty`, embedded from the source:
empty name or no attached window yields the invalid variant `{}`;
otherwise the window's property when valid, else `defaultValue`. -/
def getProperty (mw : Option PropWindow) (name : String) (defaultValue : QVariant) :
    QVariant :=
  if name.isEmpty then QVariant.invalid
  else
    match mw with
    | none => QVariant.invalid
    | some w =>
      let value := PropWindow.property w name
      if value.isValid then value else defaultValue

/-- `FramelessWidgetsHelperPrivate::setHitTestVisible(QWidget*, bool)`,
embedded from the source: with a record present, `visible = true` appends
the widget to the exclusion list, `visible = false` removes every
occurrence (`QList::removeAll`). -/
def setHitTestVisibleWidget (odata : Option FramelessWidgetsHelperData)
    (widget : Widget) (visible : Bool) : Option FramelessWidgetsHelperData :=
  match odata with
  | none => none
  | some data =>
    if visible then
      some { data with hitTestVisibleWidgets := data.hitTestVisibleWidgets ++ [some widget] }
    else
      some { data with hitTestVisibleWidgets :=
               data.hitTestVisibleWidgets.filter (fun x => x ≠ some widget) }

/-- `FramelessWidgetsHelperPrivate::setHitTestVisible(QRect, bool)`,
embedded from the source: an invalid rectangle is rejected up front;
otherwise `visible = true` appends and `visible = false` removes every
occurrence. -/
def setHitTestVisibleRect (odata : Option FramelessWidgetsHelperData)
    (rect : QRect) (visible : Bool) : Option FramelessWidgetsHelperData :=
  if !rect.isValid then odata
  else
    match odata with
    | none => none
    | some data =>
      if visible then
        some { data with hitTestVisibleRects := data.hitTestVisibleRects ++ [rect] }
      else
        some { data with hitTestVisibleRects :=
                 data.hitTestVisibleRects.filter (fun x => x ≠ rect) }

/-- The state touched by the attach/detach lifecycle of one helper
instance: `m_window` (by window identity), `m_destroying`, the process-wide
table `g_framelessWidgetsHelperData` as an association list, the external
`FramelessManager` registry as the multiset of registered window
identities, and the log of signals actually delivered by
`emitSignalForAllInstances`. -/
structure LifecycleState where
  m_window : Option Nat
  m_destroying : Bool
  table : List (Nat × FramelessWidgetsHelperData)
  registry : List Nat
  signals : List String
  deriving DecidableEq, Repr

/-- The state of a freshly constructed helper in a fresh process. -/
def initialState : LifecycleState :=
  { m_window := none, m_destroying := false, table := [], registry := [], signals := [] }

/-- Lookup in the per-window table (`QHash::find`). -/
def tableFind : List (Nat × FramelessWidgetsHelperData) → Nat →
    Option FramelessWidgetsHelperData
  | [], _ => none
  | (k, d) :: rest, key => if k = key then some d else tableFind rest key

/-- In-place update of the entry of a key already in the table (writing
through the reference returned by `QHash::find`). -/
def tableSet : List (Nat × FramelessWidgetsHelperData) → Nat →
    FramelessWidgetsHelperData → List (Nat × FramelessWidgetsHelperData)
  | [], _, _ => []
  | (k, d) :: rest, key, v =>
    if k = key then (k, v) :: rest else (k, d) :: tableSet rest key v

/-- Removal of a key's entry (`QHash::erase`); keys are unique in a hash so
only the first match is removed. -/
def tableEraseKey : List (Nat × FramelessWidgetsHelperData) → Nat →
    List (Nat × FramelessWidgetsHelperData)
  | [], _ => []
  | (k, d) :: rest, key =>
    if k = key then rest else (k, d) :: tableEraseKey rest key

/-- `FramelessWidgetsHelperPrivate::getWindowData` (the const and mutable
versions share this body): null when unattached, otherwise the window's
entry, lazily inserted default-initialised when missing. -/
def getWindowData (s : LifecycleState) :
    LifecycleState × Option FramelessWidgetsHelperData :=
  match s.m_window with
  | none => (s, none)
  | some w =>
    match tableFind s.table w with
    | some d => (s, some d)
    | none =>
      ({ s with table := s.table ++ [(w, defaultHelperData)] }, some defaultHelperData)

/-- The signal name used by `detach`. -/
def signalWindowChanged : String := "windowChanged"

/-- The signal name used by `extendsContentIntoTitleBar`. -/
def signalExtendsChanged : String := "extendsContentIntoTitleBarChanged"

/-- `FramelessWidgetsHelperPrivate::emitSignalForAllInstances`, embedded
from the source: empty signal names are rejected, and nothing is delivered
when `m_window` is null (the instances are found as children of
`m_window`); otherwise the signal reaches every instance, logged once. -/
def emitSignalForAllInstances (s : LifecycleState) (signal : String) : LifecycleState :=
  if signal.isEmpty then s
  else
    match s.m_window with
    | none => s
    | some _ => { s with signals := s.signals ++ [signal] }

/-- `FramelessWidgetsHelperPrivate::attach`, embedded from the source.
`resolved` is the result of `findTopLevelWindow()` (by window identity);
a null result returns immediately, as does `m_window == window`.  The
window-attribute calls have no footprint in this state.  The deferred
`QTimer::singleShot` block (platform-ready flag, optional centering and
blur, `windowChanged`/`ready` notifications) is asynchronous and outside
this state model. -/
def attach (resolved : Option Nat) (s : LifecycleState) : LifecycleState :=
  match resolved with
  | none => s
  | some w =>
    if s.m_window = some w then s
    else
      let s1 : LifecycleState := { s with m_window := some w }
      let t := getWindowData s1
      match t.2 with
      | none => t.1
      | some d =>
        if d.ready then t.1
        else
          { t.1 with
            registry := t.1.registry ++ [w],
            table := tableSet t.1.table w { d with params := some w, ready := true } }

/-- `FramelessWidgetsHelperPrivate::detach`, embedded from the source: no-op
when unattached or when the window has no table entry; otherwise erase the
entry, remove the registry entry, clear `m_window`, and then call
`emitSignalForAllInstances` — which, `m_window` having just been cleared,
delivers nothing. -/
def detach (s : LifecycleState) : LifecycleState :=
  match s.m_window with
  | none => s
  | some w =>
    match tableFind s.table w with
    | none => s
    | some _ =>
      let s1 : LifecycleState :=
        { s with table := tableEraseKey s.table w,
                 registry := s.registry.erase w,
                 m_window := none }
      emitSignalForAllInstances s1 signalWindowChanged

/-- `FramelessWidgetsHelperPrivate::extendsContentIntoTitleBar(bool)`,
embedded from the source: a no-op when the current flag already equals the
requested value, otherwise attach or detach, then (unless destroying)
notify `extendsContentIntoTitleBarChanged`. -/
def extendsContentIntoTitleBar (resolved : Option Nat) (value : Bool)
    (s : LifecycleState) : LifecycleState :=
  let t := getWindowData s
  let current : Bool := match t.2 with | some d => d.ready | none => false
  if current = value then t.1
  else
    let s2 := if value then attach resolved t.1 else detach t.1
    if s2.m_destroying then s2 else emitSignalForAllInstances s2 signalExtendsChanged

/-- `FramelessWidgetsHelperPrivate::isContentExtendedIntoTitleBar`, embedded
from the source: the `ready` flag of the window's record, false when
unattached. -/
def isContentExtendedIntoTitleBar (s : LifecycleState) : Bool :=
  match (getWindowData s).2 with
  | some d => d.ready
  | none => false

/-- The destructor path `~FramelessWidgetsHelperPrivate`: set `m_destroying`
and call `extendsContentIntoTitleBar(false)`. -/
def destroyHelper (s : LifecycleState) : LifecycleState :=
  extendsContentIntoTitleBar none false { s with m_destroying := true }

/-- A sequence of `extendsContentIntoTitleBar` calls on a helper whose
`findTopLevelWindow()` resolves the fixed window `w` throughout. -/
def applyExtOps (w : Nat) (ops : List Bool) (s : LifecycleState) : LifecycleState :=
  ops.foldl (fun st v => extendsContentIntoTitleBar (some w) v st) s

/-- States reachable by a single helper driving
`extendsContentIntoTitleBar` for the fixed window `w` from a fresh start:
either fully detached with an empty table, or attached with exactly the
ready record for `w`. -/
def ReachInv (w : Nat) (s : LifecycleState) : Prop :=
  s.m_destroying = false ∧
  ((s.m_window = none ∧ s.table = []) ∨
   (∃ d : FramelessWidgetsHelperData,
      s.m_window = some w ∧ s.table = [(w, d)] ∧ d.ready = true))

/-- A property name used in the worked property-access example. -/
def sampleKey : String := "anyProperty"

/-- A fixed-size (via the dialog hint), maximized top-level widget: the
input separating the two clauses of the repaint-forcer claim. -/
def exampleMaximizedFixed : RepaintWidget :=
  { isWindow := true, minimized := false, maximized := true, fullScreen := false,
    fixedSizeHint := true, minSize := ⟨0, 0⟩, maxSize := ⟨0, 0⟩,
    horizontalPolicyFixed := false, verticalPolicyFixed := false,
    size := ⟨200, 100⟩, pos := ⟨5, 5⟩ }

/-- A fixed-size child widget in no special window state. -/
def exampleFixedChild : RepaintWidget :=
  { isWindow := false, minimized := false, maximized := false, fullScreen := false,
    fixedSizeHint := true, minSize := ⟨0, 0⟩, maxSize := ⟨0, 0⟩,
    horizontalPolicyFixed := false, verticalPolicyFixed := false,
    size := ⟨100, 50⟩, pos := ⟨20, 30⟩ }

theorem subtractWidgetRect_apply (reg : QRegion) (ow : Option Widget) (p : QPoint) :
    subtractWidgetRect reg ow p = (reg p && !sceneRectExcludesWidget ow p) := by
  cases ow with
  | none => simp [subtractWidgetRect, sceneRectExcludesWidget]
  | some b =>
    cases hv : b.visible <;> cases he : b.enabled <;>
      simp [subtractWidgetRect, sceneRectExcludesWidget, hv, he, QRegion.subtractRect]

theorem foldl_subtractWidgetRect_apply (ws : List (Option Widget)) (reg : QRegion)
    (p : QPoint) :
    ws.foldl subtractWidgetRect reg p
      = (reg p && ws.all (fun ow => !sceneRectExcludesWidget ow p)) := by
  induction ws generalizing reg with
  | nil => simp
  | cons ow rest ih =>
    cases ow with
    | none =>
      simp [subtractWidgetRect, sceneRectExcludesWidget, ih]
    | some b =>
      cases hv : b.visible <;> cases he : b.enabled <;>
        simp [subtractWidgetRect, sceneRectExcludesWidget, hv, he, ih,
              QRegion.subtractRect, Bool.and_assoc]

theorem foldl_subtractValidRect_apply (rs : List QRect) (reg : QRegion) (p : QPoint) :
    rs.foldl subtractValidRect reg p
      = (reg p && rs.all (fun r => !(r.isValid && rectPixelContains r p))) := by
  induction rs generalizing reg with
  | nil => simp
  | cons r rest ih =>
    cases hr : r.isValid <;>
      simp [subtractValidRect, hr, ih, QRegion.subtractRect, Bool.and_assoc]

/-- C1: `isInTitleBarDraggableArea` returns false with no title-bar widget,
with it hidden or disabled, with the helper unattached, or with the mapped
title-bar rectangle not intersecting the client rectangle; otherwise it
holds exactly when the point lies in the title-bar rectangle minus every
visible+enabled system button, minus every visible+enabled excluded widget,
minus every valid literal excluded rectangle.  With title bar (0,0,400,30),
a visible+enabled close button at (370,0,30,30) and no other exclusions,
the result is false at (385,15), true at (10,15) and false at (10,50). -/
theorem isInTitleBarDraggableArea_correct :
    (∀ (mw : Option Window) (odata : Option FramelessWidgetsHelperData) (pos : QPoint),
       isInTitleBarDraggableArea mw odata pos = specIsInsideDraggableArea mw odata pos) ∧
    isInTitleBarDraggableArea (some exampleWindow) (some exampleHitTestData) ⟨385, 15⟩ = false ∧
    isInTitleBarDraggableArea (some exampleWindow) (some exampleHitTestData) ⟨10, 15⟩ = true ∧
    isInTitleBarDraggableArea (some exampleWindow) (some exampleHitTestData) ⟨10, 50⟩ = false := by
  refine ⟨?_, by decide, by decide, by decide⟩
  intro mw odata pos
  cases odata with
  | none => cases mw <;> rfl
  | some data =>
    cases htb : data.titleBarWidget with
    | none =>
      cases mw <;> simp [isInTitleBarDraggableArea, specIsInsideDraggableArea, htb]
    | some tb =>
      cases mw with
      | none => simp [isInTitleBarDraggableArea, specIsInsideDraggableArea, htb]
      | some w =>
        cases hv : tb.visible <;> cases he : tb.enabled <;>
          simp [isInTitleBarDraggableArea, specIsInsideDraggableArea, htb, hv, he]
        by_cases hint : QRect.intersects (mapWidgetGeometryToScene tb)
            ⟨0, 0, w.width, w.height⟩
        · simp [hint, QRegion.containsPoint, QRegion.ofRect,
                foldl_subtractWidgetRect_apply, foldl_subtractValidRect_apply,
                subtractWidgetRect_apply, Bool.and_assoc]
        · simp [hint]

/-- C2: `isInSystemButtons` tests the point against each assigned, visible
and enabled system button in the fixed priority order window-icon, help,
minimize, maximize/restore, close; the first hit wins, and with no hit it
returns false with role `Unknown` (with no per-window record it returns
false leaving the out-parameter untouched).  When the window-icon and help
rectangles both contain the point, the reported role is window-icon. -/
theorem isInSystemButtons_priority :
    (∀ (odata : Option FramelessWidgetsHelperData) (pos : QPoint) (bIn : SystemButtonType),
       isInSystemButtons odata pos bIn =
         (match odata with
          | none => (false, bIn)
          | some data =>
            match specIsInsideSystemButton data pos with
            | some role => (true, role)
            | none => (false, SystemButtonType.Unknown))) ∧
    isInSystemButtons (some exampleOverlapData) exampleOverlapPoint SystemButtonType.Unknown
      = (true, SystemButtonType.WindowIcon) := by
  refine ⟨?_, by decide⟩
  intro odata pos bIn
  cases odata with
  | none => rfl
  | some data =>
    simp only [isInSystemButtons, specIsInsideSystemButton, specButtonPriority,
               List.findSome?]
    cases h1 : widgetHit data.windowIconButton pos <;>
    cases h2 : widgetHit data.contextHelpButton pos <;>
    cases h3 : widgetHit data.minimizeButton pos <;>
    cases h4 : widgetHit data.maximizeButton pos <;>
    cases h5 : widgetHit data.closeButton pos <;>
    simp [h1, h2, h3, h4, h5]

/-- C6: `shouldIgnoreMouseEvents` holds exactly when the window is attached
and in its normal state and the point lies in the fixed-thickness resize
band along the top edge, or, on platforms without a visible native frame
border, along the left or right edge.  With thickness 8: normal state and
y = 3 gives true, maximized with the same point gives false. -/
theorem shouldIgnoreMouseEvents_correct :
    (∀ (mw : Option Window) (frameBorderVisible : Bool) (pos : QPoint),
       shouldIgnoreMouseEvents mw frameBorderVisible pos
         = specShouldIgnoreMouseEvents mw frameBorderVisible pos) ∧
    shouldIgnoreMouseEvents (some exampleWindow) true ⟨100, 3⟩ = true ∧
    shouldIgnoreMouseEvents (some exampleWindow) false ⟨100, 3⟩ = true ∧
    shouldIgnoreMouseEvents (some { exampleWindow with state := WindowState.Maximized })
      true ⟨100, 3⟩ = false ∧
    shouldIgnoreMouseEvents (some { exampleWindow with state := WindowState.Maximized })
      false ⟨100, 3⟩ = false := by
  refine ⟨?_, by decide, by decide, by decide, by decide⟩
  intro mw frameBorderVisible pos
  cases mw with
  | none => rfl
  | some w =>
    cases frameBorderVisible <;>
      by_cases hy : pos.y < kDefaultResizeBorderThickness <;>
        simp [shouldIgnoreMouseEvents, specShouldIgnoreMouseEvents, hy]

/-- C7 counterexample: a fixed-size, maximized (hence not minimized)
top-level widget.  The claim's clause "its position is still perturbed and
restored unless the widget is a minimized top-level window" demands a
position perturbation here, but the code skips all geometry perturbation:
the trace contains no move at all. -/
theorem forceWidgetRepaint_maximized_counterexample :
    isWidgetFixedSize exampleMaximizedFixed = true ∧
    (exampleMaximizedFixed.isWindow && exampleMaximizedFixed.minimized) = false ∧
    movesOf (forceWidgetRepaint exampleMaximizedFixed).2 = [] ∧
    (forceWidgetRepaint exampleMaximizedFixed).1 = exampleMaximizedFixed := by
  decide

/-- C7 (amended): for a fixed-size widget the repaint forcer performs no
resize and leaves the size unchanged, and still perturbs and restores the
position unless the widget is a minimized, maximized or fullscreen
top-level window; for a minimized, maximized or fullscreen top-level window
all size and position perturbation is skipped. -/
theorem forceWidgetRepaint_fixed_size :
    ∀ w : RepaintWidget,
    (isWidgetFixedSize w = true →
       (forceWidgetRepaint w).1.size = w.size ∧
       resizesOf (forceWidgetRepaint w).2 = [] ∧
       ((w.isWindow && (w.minimized || w.maximized || w.fullScreen)) = false →
          movesOf (forceWidgetRepaint w).2
            = [GeomEvent.move (QPoint.sub w.pos repaintOffset),
               GeomEvent.move (QPoint.add w.pos repaintOffset),
               GeomEvent.move w.pos] ∧
          (forceWidgetRepaint w).1.pos = w.pos)) ∧
    ((w.isWindow && (w.minimized || w.maximized || w.fullScreen)) = true →
       (forceWidgetRepaint w).2 = [GeomEvent.update, GeomEvent.update] ∧
       (forceWidgetRepaint w).1 = w) := by
  intro w
  obtain ⟨iw, mi, ma, fs, fh, mins, maxs, hp, vp, sz, ps⟩ := w
  constructor
  · intro hfix
    cases iw <;> cases mi <;> cases ma <;> cases fs <;>
      simp [forceWidgetRepaint, hfix, movesOf, resizesOf,
            GeomEvent.isMove, GeomEvent.isResize]
  · intro hstate
    cases iw <;> cases mi <;> cases ma <;> cases fs <;>
      simp_all [forceWidgetRepaint, movesOf, resizesOf,
                GeomEvent.isMove, GeomEvent.isResize]

/-- Closed witness for the amended repaint-forcer theorem at a fixed-size
child widget in no special window state. -/
theorem forceWidgetRepaint_fixed_size_witness :
    (forceWidgetRepaint exampleFixedChild).1.size = exampleFixedChild.size ∧
    resizesOf (forceWidgetRepaint exampleFixedChild).2 = [] ∧
    movesOf (forceWidgetRepaint exampleFixedChild).2
      = [GeomEvent.move (QPoint.sub exampleFixedChild.pos repaintOffset),
         GeomEvent.move (QPoint.add exampleFixedChild.pos repaintOffset),
         GeomEvent.move exampleFixedChild.pos] ∧
    (forceWidgetRepaint exampleFixedChild).1.pos = exampleFixedChild.pos := by
  have h := (forceWidgetRepaint_fixed_size exampleFixedChild).1 (by decide)
  exact ⟨h.1, h.2.1, (h.2.2 (by decide)).1, (h.2.2 (by decide)).2⟩

/-- C8: `setSystemButtonState` is a no-op (no feedback event emulated on
any widget) when the role is unknown, when there is no per-window record,
or when the slot for the role is empty; only with a widget in the slot is
the feedback event emulated, on exactly that widget. -/
theorem setSystemButtonState_empty_slot_noop :
    ∀ (data : FramelessWidgetsHelperData) (st : ButtonState) (wb : Widget),
    setSystemButtonState none SystemButtonType.Close st = none ∧
    setSystemButtonState (some data) SystemButtonType.Unknown st = none ∧
    setSystemButtonState (some { data with windowIconButton := none })
      SystemButtonType.WindowIcon st = none ∧
    setSystemButtonState (some { data with contextHelpButton := none })
      SystemButtonType.Help st = none ∧
    setSystemButtonState (some { data with minimizeButton := none })
      SystemButtonType.Minimize st = none ∧
    setSystemButtonState (some { data with maximizeButton := none })
      SystemButtonType.Maximize st = none ∧
    setSystemButtonState (some { data with maximizeButton := none })
      SystemButtonType.Restore st = none ∧
    setSystemButtonState (some { data with closeButton := none })
      SystemButtonType.Close st = none ∧
    setSystemButtonState (some { data with windowIconButton := some wb })
      SystemButtonType.WindowIcon st = some (wb, st) ∧
    setSystemButtonState (some { data with contextHelpButton := some wb })
      SystemButtonType.Help st = some (wb, st) ∧
    setSystemButtonState (some { data with minimizeButton := some wb })
      SystemButtonType.Minimize st = some (wb, st) ∧
    setSystemButtonState (some { data with maximizeButton := some wb })
      SystemButtonType.Maximize st = some (wb, st) ∧
    setSystemButtonState (some { data with maximizeButton := some wb })
      SystemButtonType.Restore st = some (wb, st) ∧
    setSystemButtonState (some { data with closeButton := some wb })
      SystemButtonType.Close st = some (wb, st) := by
  intro data st wb
  refine ⟨rfl, rfl, rfl, rfl, rfl, rfl, rfl, rfl, rfl, rfl, rfl, rfl, rfl, rfl⟩

/-- C9: with no attached window, `getProperty` returns the invalid variant
rather than the caller-supplied default; the default is returned exactly
when a window is attached, the name is nonempty, and the window's property
is unset or invalid. -/
theorem getProperty_unattached_invalid :
    (∀ (name : String) (dv : QVariant), getProperty none name dv = QVariant.invalid) ∧
    (∀ (w : PropWindow) (name : String) (dv : QVariant),
       getProperty (some w) name dv =
         if name.isEmpty then QVariant.invalid
         else if (PropWindow.property w name).isValid then PropWindow.property w name
         else dv) ∧
    getProperty none sampleKey (QVariant.value 7) = QVariant.invalid ∧
    QVariant.invalid ≠ QVariant.value 7 := by
  refine ⟨?_, ?_, ?_, by decide⟩
  · intro name dv
    by_cases h : name.isEmpty <;> simp [getProperty, h]
  · intro w name dv
    by_cases h : name.isEmpty <;> simp [getProperty, h]
  · have h : sampleKey.isEmpty = false := rfl
    simp [getProperty, h]

/-- C10: `setHitTestVisible(widget, true)` appends without any duplicate
check, so the exclusion list can hold the same widget several times, while
`setHitTestVisible(widget, false)` removes every occurrence, leaving zero
occurrences after a single call; the same append/remove-all asymmetry
holds for literal rectangles (which are rejected up front when invalid). -/
theorem setHitTestVisible_append_removeAll :
    ∀ (data : FramelessWidgetsHelperData) (wg : Widget) (r : QRect),
    setHitTestVisibleWidget (some data) wg true
      = some { data with hitTestVisibleWidgets := data.hitTestVisibleWidgets ++ [some wg] } ∧
    (data.hitTestVisibleWidgets ++ [some wg]).count (some wg)
      = data.hitTestVisibleWidgets.count (some wg) + 1 ∧
    setHitTestVisibleWidget (some data) wg false
      = some { data with hitTestVisibleWidgets :=
                 data.hitTestVisibleWidgets.filter (fun x => x ≠ some wg) } ∧
    (data.hitTestVisibleWidgets.filter (fun x => x ≠ some wg)).count (some wg) = 0 ∧
    setHitTestVisibleRect (some data) r true
      = (if r.isValid then
           some { data with hitTestVisibleRects := data.hitTestVisibleRects ++ [r] }
         else some data) ∧
    (data.hitTestVisibleRects ++ [r]).count r = data.hitTestVisibleRects.count r + 1 ∧
    setHitTestVisibleRect (some data) r false
      = (if r.isValid then
           some { data with hitTestVisibleRects :=
                    data.hitTestVisibleRects.filter (fun x => x ≠ r) }
         else some data) ∧
    (data.hitTestVisibleRects.filter (fun x => x ≠ r)).count r = 0 := by
  intro data wg r
  refine ⟨rfl, ?_, rfl, ?_, ?_, ?_, ?_, ?_⟩
  · simp [List.count_append]
  · simp [List.count_eq_zero, List.mem_filter]
  · by_cases hr : r.isValid <;> simp [setHitTestVisibleRect, hr]
  · simp [List.count_append]
  · by_cases hr : r.isValid <;> simp [setHitTestVisibleRect, hr]
  · simp [List.count_eq_zero, List.mem_filter]

theorem attach_m_window (w : Nat) (s : LifecycleState) :
    (attach (some w) s).m_window = some w := by
  by_cases h : s.m_window = some w
  · simp [attach, h]
  · simp only [attach, h, if_false]
    cases heq : tableFind s.table w with
    | none => simp [getWindowData, heq, defaultHelperData]
    | some d =>
      by_cases hr : d.ready
      · simp [getWindowData, heq, hr]
      · simp [getWindowData, heq, hr]

theorem attach_noop_of_window (w : Nat) (s : LifecycleState) (h : s.m_window = some w) :
    attach (some w) s = s := by
  simp [attach, h]

/-- C3: a second `attach` in direct succession resolving the same top-level
window is a no-op, and from a fresh state `attach` leaves the window's
record ready with the parameter table bound to that window and exactly one
registry entry — also after attaching twice. -/
theorem attach_idempotent (w : Nat) (s : LifecycleState) :
    attach (some w) (attach (some w) s) = attach (some w) s ∧
    tableFind (attach (some w) initialState).table w
      = some { defaultHelperData with ready := true, params := some w } ∧
    (attach (some w) initialState).registry = [w] ∧
    (attach (some w) (attach (some w) initialState)).registry = [w] := by
  refine ⟨attach_noop_of_window w _ (attach_m_window w s), ?_, ?_, ?_⟩
  · simp [attach, initialState, getWindowData, tableFind, tableSet, defaultHelperData]
  · simp [attach, initialState, getWindowData, tableFind, tableSet, defaultHelperData]
  · rw [attach_noop_of_window w _ (attach_m_window w initialState)]
    simp [attach, initialState, getWindowData, tableFind, tableSet, defaultHelperData]

/-- C5: `detach` is a no-op when unattached; when attached with the
window's record present it erases the record, removes the registry entry
exactly once, clears `m_window`, and is a no-op from then on — also along
the destructor path.  The signal log is left unchanged: the claimed
"window changed" notification is never delivered, because `m_window` is
cleared before `emitSignalForAllInstances` runs and that function returns
early on a null `m_window`. -/
theorem detach_unregisters_once (pre : LifecycleState) (w : Nat)
    (d : FramelessWidgetsHelperData) :
    detach { pre with m_window := none } = { pre with m_window := none } ∧
    detach { pre with m_window := some w, table := [(w, d)] }
      = { pre with m_window := none, table := [], registry := pre.registry.erase w } ∧
    (detach { pre with m_window := some w, table := [(w, d)] }).signals = pre.signals ∧
    detach (detach { pre with m_window := some w, table := [(w, d)] })
      = detach { pre with m_window := some w, table := [(w, d)] } ∧
    destroyHelper { pre with m_window := some w,
                             table := [(w, { d with ready := true })] }
      = { pre with m_destroying := true, m_window := none, table := [],
                   registry := pre.registry.erase w } := by
  obtain ⟨mw0, md0, tb0, rg0, sg0⟩ := pre
  have hW : signalWindowChanged.isEmpty = false := rfl
  have hE : signalExtendsChanged.isEmpty = false := rfl
  refine ⟨rfl, ?_, ?_, ?_, ?_⟩ <;>
    simp [detach, destroyHelper, extendsContentIntoTitleBar, getWindowData, tableFind,
          tableEraseKey, emitSignalForAllInstances, hW, hE]

theorem ext_noop_empty (w : Nat) (s : LifecycleState) (hmw : s.m_window = none) :
    extendsContentIntoTitleBar (some w) false s = s := by
  simp [extendsContentIntoTitleBar, getWindowData, hmw]

theorem ext_noop_ready (w : Nat) (s : LifecycleState) (d : FramelessWidgetsHelperData)
    (hmw : s.m_window = some w) (hfind : tableFind s.table w = some d)
    (hready : d.ready = true) :
    extendsContentIntoTitleBar (some w) true s = s := by
  simp [extendsContentIntoTitleBar, getWindowData, hmw, hfind, hready]

theorem ext_attach_from_empty (w : Nat) (s : LifecycleState)
    (hmw : s.m_window = none) (htab : s.table = []) (hd : s.m_destroying = false) :
    extendsContentIntoTitleBar (some w) true s =
      { s with m_window := some w,
               table := [(w, { defaultHelperData with params := some w, ready := true })],
               registry := s.registry ++ [w],
               signals := s.signals ++ [signalExtendsChanged] } := by
  obtain ⟨mw0, md0, tb0, rg0, sg0⟩ := s
  simp only at hmw htab hd
  subst hmw htab hd
  have hE : signalExtendsChanged.isEmpty = false := rfl
  simp [extendsContentIntoTitleBar, getWindowData, attach, tableFind, tableSet,
        emitSignalForAllInstances, hE, defaultHelperData]

theorem ext_detach_from_ready (w : Nat) (s : LifecycleState)
    (d : FramelessWidgetsHelperData) (hmw : s.m_window = some w)
    (htab : s.table = [(w, d)]) (hready : d.ready = true)
    (hd : s.m_destroying = false) :
    extendsContentIntoTitleBar (some w) false s =
      { s with m_window := none, table := [], registry := s.registry.erase w } := by
  obtain ⟨mw0, md0, tb0, rg0, sg0⟩ := s
  simp only at hmw htab hd
  subst hmw htab hd
  have hW : signalWindowChanged.isEmpty = false := rfl
  simp [extendsContentIntoTitleBar, getWindowData, detach, tableFind, tableEraseKey,
        emitSignalForAllInstances, hW, hready]

theorem isContentExtended_of_empty (s : LifecycleState) (hmw : s.m_window = none) :
    isContentExtendedIntoTitleBar s = false := by
  simp [isContentExtendedIntoTitleBar, getWindowData, hmw]

theorem isContentExtended_of_found (s : LifecycleState) (w : Nat)
    (d : FramelessWidgetsHelperData) (hmw : s.m_window = some w)
    (hfind : tableFind s.table w = some d) :
    isContentExtendedIntoTitleBar s = d.ready := by
  simp [isContentExtendedIntoTitleBar, getWindowData, hmw, hfind]

theorem ext_preserves_inv (w : Nat) (v : Bool) (s : LifecycleState)
    (h : ReachInv w s) :
    ReachInv w (extendsContentIntoTitleBar (some w) v s) ∧
    isContentExtendedIntoTitleBar (extendsContentIntoTitleBar (some w) v s) = v := by
  obtain ⟨hd, hcase⟩ := h
  rcases hcase with ⟨hmw, htab⟩ | ⟨d, hmw, htab, hready⟩
  · cases v
    · rw [ext_noop_empty w s hmw]
      exact ⟨⟨hd, Or.inl ⟨hmw, htab⟩⟩, isContentExtended_of_empty s hmw⟩
    · rw [ext_attach_from_empty w s hmw htab hd]
      constructor
      · exact ⟨hd, Or.inr ⟨{ defaultHelperData with params := some w, ready := true },
          rfl, rfl, rfl⟩⟩
      · simp [isContentExtendedIntoTitleBar, getWindowData, tableFind]
  · have hfind : tableFind s.table w = some d := by rw [htab]; simp [tableFind]
    cases v
    · rw [ext_detach_from_ready w s d hmw htab hready hd]
      exact ⟨⟨hd, Or.inl ⟨rfl, rfl⟩⟩, isContentExtended_of_empty _ rfl⟩
    · rw [ext_noop_ready w s d hmw hfind hready]
      exact ⟨⟨hd, Or.inr ⟨d, hmw, htab, hready⟩⟩,
        (isContentExtended_of_found s w d hmw hfind).trans hready⟩

theorem ext_noop_at_flag (w : Nat) (v : Bool) (s : LifecycleState)
    (h : ReachInv w s) (hf : isContentExtendedIntoTitleBar s = v) :
    extendsContentIntoTitleBar (some w) v s = s := by
  obtain ⟨hd, hcase⟩ := h
  rcases hcase with ⟨hmw, htab⟩ | ⟨d, hmw, htab, hready⟩
  · rw [isContentExtended_of_empty s hmw] at hf
    subst hf
    exact ext_noop_empty w s hmw
  · have hfind : tableFind s.table w = some d := by rw [htab]; simp [tableFind]
    rw [isContentExtended_of_found s w d hmw hfind, hready] at hf
    subst hf
    exact ext_noop_ready w s d hmw hfind hready

theorem getLastD_append_single (l : List Bool) (v d : Bool) :
    (l ++ [v]).getLastD d = v := by
  induction l generalizing d with
  | nil => rfl
  | cons a rest ih =>
    rw [List.cons_append, List.getLastD_cons]
    exact ih a

theorem applyExtOps_append_single (w : Nat) (l : List Bool) (v : Bool)
    (s : LifecycleState) :
    applyExtOps w (l ++ [v]) s
      = extendsContentIntoTitleBar (some w) v (applyExtOps w l s) := by
  simp [applyExtOps, List.foldl_append]

theorem applyExtOps_inv (w : Nat) (ops : List Bool) :
    ReachInv w (applyExtOps w ops initialState) ∧
    isContentExtendedIntoTitleBar (applyExtOps w ops initialState)
      = ops.getLastD false := by
  induction ops using List.reverseRecOn with
  | nil => exact ⟨⟨rfl, Or.inl ⟨rfl, rfl⟩⟩, rfl⟩
  | append_singleton l a ih =>
    rw [applyExtOps_append_single]
    obtain ⟨hinv, _⟩ := ih
    have h2 := ext_preserves_inv w a _ hinv
    exact ⟨h2.1, h2.2.trans (getLastD_append_single l a false).symm⟩

/-- C4: driving `extendsContentIntoTitleBar` with any sequence of
true/false requests on a helper resolving a fixed window, the record's
`contentExtended` flag (`isContentExtendedIntoTitleBar`) equals the
direction of the last request (false for the empty sequence), and a
request repeating the value already in effect changes nothing at all. -/
theorem extendsContent_matches_last (w : Nat) (ops : List Bool) :
    isContentExtendedIntoTitleBar (applyExtOps w ops initialState)
      = ops.getLastD false ∧
    ∀ v : Bool, applyExtOps w (ops ++ [v, v]) initialState
      = applyExtOps w (ops ++ [v]) initialState := by
  refine ⟨(applyExtOps_inv w ops).2, fun v => ?_⟩
  have e1 : ops ++ [v, v] = (ops ++ [v]) ++ [v] := by simp
  rw [e1, applyExtOps_append_single]
  obtain ⟨hinv, hflag⟩ := applyExtOps_inv w (ops ++ [v])
  exact ext_noop_at_flag w v _ hinv
    (hflag.trans (getLastD_append_single ops v false))

end FramelessHelper
